import Mathlib

/-!
Shallow embedding of the AI-librarian orchestration layer
(`mcpserver.py`, `smolagents_server.py`, `crew_agent_server.py`, `main.py`).

Modelling conventions:

* Python strings are Lean `String`s (lists of unicode code points).
  `str.lower` and `str.strip` are modelled on the ASCII range, which
  covers every alias-table entry, command word and catalog key the
  program manipulates.
* Filesystem state is a parameter: `Option (List DirEntry)` is the
  listing of the content directory (`none` models a missing
  directory), each entry carrying its `os.path.isfile` status.
* `json.loads` of an externally supplied string is modelled by its
  outcome (`Except String JValue`, the error carrying the rendered
  `JSONDecodeError` text); `json.dumps` is implemented concretely.
  JSON numbers are modelled as integers; the claims exercise no
  floating-point payloads.
* A remote ACP call is modelled by its outcome: `Except.error e`
  stands for a raised transport exception whose rendered text is `e`,
  and a returned value of type `Except ... α` with `Except.error`
  models an exception propagating out of the modelled Python function.
-/

/-! ## Python string primitives (ASCII scope) -/

def pyIsSpace (c : Char) : Bool :=
  c == ' ' || c == '\t' || c == '\n' || c == '\r' || c == '\x0b' || c == '\x0c'

def asciiLowerTable : List (Char × Char) :=
  [('A', 'a'), ('B', 'b'), ('C', 'c'), ('D', 'd'), ('E', 'e'), ('F', 'f'),
   ('G', 'g'), ('H', 'h'), ('I', 'i'), ('J', 'j'), ('K', 'k'), ('L', 'l'),
   ('M', 'm'), ('N', 'n'), ('O', 'o'), ('P', 'p'), ('Q', 'q'), ('R', 'r'),
   ('S', 's'), ('T', 't'), ('U', 'u'), ('V', 'v'), ('W', 'w'), ('X', 'x'),
   ('Y', 'y'), ('Z', 'z')]

/-- First-match association-list lookup, the model of Python `dict` access
(JSON objects and the alias table have no duplicate keys). -/
def lookupAssoc {α β : Type} [DecidableEq α] : List (α × β) → α → Option β
  | [], _ => none
  | (a, b) :: rest, k => if a = k then some b else lookupAssoc rest k

def pyToLowerChar (c : Char) : Char :=
  (lookupAssoc asciiLowerTable c).getD c

/-- Model of Python `str.lower()` (ASCII scope). -/
def pyLower (s : String) : String := ⟨s.data.map pyToLowerChar⟩

def stripLeftL (l : List Char) : List Char := l.dropWhile pyIsSpace

def stripRightL (l : List Char) : List Char := (l.reverse.dropWhile pyIsSpace).reverse

def stripL (l : List Char) : List Char := stripRightL (stripLeftL l)

/-- Model of Python `str.strip()` (ASCII whitespace). -/
def pyStrip (s : String) : String := ⟨stripL s.data⟩

def startsWithL : List Char → List Char → Bool
  | _, [] => true
  | [], _ :: _ => false
  | c :: cs, p :: ps => c == p && startsWithL cs ps

/-- Model of Python `str.startswith`. -/
def pyStartsWith (s pat : String) : Bool := startsWithL s.data pat.data

def containsL (pat : List Char) : List Char → Bool
  | [] => startsWithL [] pat
  | c :: cs => startsWithL (c :: cs) pat || containsL pat cs

/-- Model of the Python substring test `pat in s`. -/
def pyContains (s pat : String) : Bool := containsL pat.data s.data

def endsWithL (l suf : List Char) : Bool := startsWithL l.reverse suf.reverse

/-- Model of Python `str.endswith`. -/
def pyEndsWith (s suf : String) : Bool := endsWithL s.data suf.data

def afterSepL (sep : Char) : List Char → List Char
  | [] => []
  | c :: cs => if c == sep then cs else afterSepL sep cs

/-- Everything after the first occurrence of `sep`, which is the third
component of Python `s.partition(sep)` as well as `s.split(sep, 1)[1]`
(empty when `sep` does not occur). -/
def pyAfterSep (s : String) (sep : Char) : String := ⟨afterSepL sep s.data⟩

def pyStrLtL : List Char → List Char → Bool
  | [], [] => false
  | [], _ :: _ => true
  | _ :: _, [] => false
  | a :: as, b :: bs =>
    if a.toNat < b.toNat then true
    else if b.toNat < a.toNat then false
    else pyStrLtL as bs

/-- Code-point lexicographic `<=` on strings, the order used by Python
`sorted` on `str`. -/
def pyStrLeB (a b : String) : Bool := !(pyStrLtL b.data a.data)

def insortStr (x : String) : List String → List String
  | [] => [x]
  | y :: ys => if pyStrLeB x y then x :: y :: ys else y :: insortStr x ys

/-- Model of Python `sorted` on a list of strings. -/
def pySorted (l : List String) : List String := l.foldr insortStr []

/-- The base-name component of `os.path.splitext`: the extension starts
at the last dot, unless every character before that dot is itself a dot
(CPython `genericpath._splitext`). -/
def splitextBaseL (l : List Char) : List Char :=
  if (l.reverse.takeWhile (fun c => c != '.')).length = l.reverse.length then l
  else if ((l.reverse.drop ((l.reverse.takeWhile (fun c => c != '.')).length + 1)).reverse).any
      (fun c => c != '.') then
    (l.reverse.drop ((l.reverse.takeWhile (fun c => c != '.')).length + 1)).reverse
  else l

def pySplitextBase (s : String) : String := ⟨splitextBaseL s.data⟩

/-! ## JSON values, Python `str()` and `json.dumps` -/

inductive JValue : Type where
  | null : JValue
  | bool (b : Bool) : JValue
  | num (n : Int) : JValue
  | str (s : String) : JValue
  | arr (items : List JValue) : JValue
  | obj (fields : List (String × JValue)) : JValue

abbrev JObj := List (String × JValue)

mutual
/-- Python `repr` of a JSON-shaped value (quote escaping inside nested
strings is out of the embedding's scope; the claims only exercise
scalar payloads here). -/
def pyRepr : JValue → String
  | .null => "None"
  | .bool true => "True"
  | .bool false => "False"
  | .num n => toString n
  | .str s => "\x27" ++ s ++ "\x27"
  | .arr xs => "[" ++ pyReprList xs ++ "]"
  | .obj kvs => "\x7b" ++ pyReprObj kvs ++ "\x7d"

def pyReprList : List JValue → String
  | [] => ""
  | x :: rest => pyRepr x ++ (if rest.isEmpty then "" else ", ") ++ pyReprList rest

def pyReprObj : List (String × JValue) → String
  | [] => ""
  | (k, v) :: rest =>
    "\x27" ++ k ++ "\x27: " ++ pyRepr v ++ (if rest.isEmpty then "" else ", ") ++ pyReprObj rest
end

/-- Python `str()` / f-string interpolation of a JSON-shaped value. -/
def pyStr : JValue → String
  | .str s => s
  | v => pyRepr v

def hexDigit (n : Nat) : Char := "0123456789abcdef".data.getD n '0'

def jsonEscapeChar (c : Char) : String :=
  if c == '"' then "\\\""
  else if c == '\\' then "\\\\"
  else if c == '\n' then "\\n"
  else if c == '\t' then "\\t"
  else if c == '\r' then "\\r"
  else if c == '\x08' then "\\b"
  else if c == '\x0c' then "\\f"
  else if c.toNat < 32 then "\\u00" ++ ⟨[hexDigit (c.toNat / 16), hexDigit (c.toNat % 16)]⟩
  else ⟨[c]⟩

def jsonEscape (s : String) : String := String.join (s.data.map jsonEscapeChar)

mutual
/-- Model of Python `json.dumps` with its default separators
(ASCII payload scope). -/
def dumpsJ : JValue → String
  | .null => "null"
  | .bool true => "true"
  | .bool false => "false"
  | .num n => toString n
  | .str s => "\"" ++ jsonEscape s ++ "\""
  | .arr xs => "[" ++ dumpsList xs ++ "]"
  | .obj kvs => "\x7b" ++ dumpsObj kvs ++ "\x7d"

def dumpsList : List JValue → String
  | [] => ""
  | x :: rest => dumpsJ x ++ (if rest.isEmpty then "" else ", ") ++ dumpsList rest

def dumpsObj : List (String × JValue) → String
  | [] => ""
  | (k, v) :: rest =>
    "\"" ++ jsonEscape k ++ "\": " ++ dumpsJ v ++ (if rest.isEmpty then "" else ", ") ++ dumpsObj rest
end

/-! ## Filesystem and ACP run results -/

/-- One entry of the content directory listing, with its
`os.path.isfile` status. -/
structure DirEntry : Type where
  name : String
  isFile : Bool
deriving DecidableEq

/-- The result object of a completed `client.run_sync` call:
`output` is the list of messages, each message the list of its part
texts; `error` is the run-level error value rendered as text. -/
structure RunResult : Type where
  output : List (List String)
  error : Option String
deriving DecidableEq

/-! ## mcpserver.py — the ACP catalog server -/

namespace Mcp

/-- `scan_books()` from `mcpserver.py`: base names of the regular
`*.txt` files in the data directory; empty when the directory is
missing. -/
def scan_books (dir : Option (List DirEntry)) : List String :=
  match dir with
  | none => []
  | some entries =>
    (entries.filter (fun e => pyEndsWith e.name ".txt" && e.isFile)).map
      (fun e => pySplitextBase e.name)

/-- `load_metadata()` from `mcpserver.py`.  `urlConfigured` models
`BOOK_METADATA_URL` being set; `remote` is the outcome of the
`requests.get(...).json()` pipeline (`.error` = any raised exception);
`localDoc` is the outcome of reading and parsing the local
`book_metadata.json` (`.error` = any read or parse failure, yielding
the empty mapping). -/
def load_metadata (urlConfigured : Bool) (remote localDoc : Except Unit JObj) : JObj :=
  if urlConfigured then
    match remote with
    | .ok m => m
    | .error _ =>
      match localDoc with
      | .ok m => m
      | .error _ => []
  else
    match localDoc with
    | .ok m => m
    | .error _ => []

/-- The tier-2 computation alone: metadata resolved purely from the
local document. -/
def local_metadata (localDoc : Except Unit JObj) : JObj :=
  match localDoc with
  | .ok m => m
  | .error _ => []

/-- Line 59 of `mcpserver.py`: `list(metadata.keys()) or scan_books()`. -/
def book_keys (metadata : JObj) (dir : Option (List DirEntry)) : List String :=
  if (metadata.map Prod.fst).isEmpty then scan_books dir else metadata.map Prod.fst

/-- The body of `book_catalog_agent` after metadata is loaded: the
response is the list of message texts it yields. -/
def book_catalog_respond (prompt : String) (metadata : JObj) (dir : Option (List DirEntry)) :
    List String :=
  if prompt = "__LIST__" then
    [dumpsJ (.arr ((pySorted (book_keys metadata dir)).map JValue.str))]
  else if pyStartsWith prompt "__META__:" = true then
    [dumpsJ ((lookupAssoc metadata (pyAfterSep prompt ':')).getD (.obj []))]
  else ["\x7b\x7d"]

/-- Line 55 of `mcpserver.py`: the prompt is the first part of the
first input message, or the empty string. -/
def extract_prompt (input : List (List String)) : String :=
  (input.head?.bind List.head?).getD ""

/-- `book_catalog_agent` from `mcpserver.py`, parameterised by the
metadata-source outcomes and the directory listing. -/
def book_catalog_agent (input : List (List String)) (urlConfigured : Bool)
    (remote localDoc : Except Unit JObj) (dir : Option (List DirEntry)) : List String :=
  book_catalog_respond (extract_prompt input) (load_metadata urlConfigured remote localDoc) dir

end Mcp

/-! ## smolagents_server.py — the literary-critic orchestrator -/

namespace Smol

/-- `_scan_books()` from `smolagents_server.py` (same body as the
catalog server's `scan_books`). -/
def _scan_books (dir : Option (List DirEntry)) : List String :=
  match dir with
  | none => []
  | some entries =>
    (entries.filter (fun e => pyEndsWith e.name ".txt" && e.isFile)).map
      (fun e => pySplitextBase e.name)

/-- `list_available_books` (the `USE_MCP_DISCOVERY` variant).
`callResult = some v` models the catalog call succeeding with a
non-empty output whose first part parsed to `v`; `none` models any
raised exception, empty output, or parse failure — every such path
falls through to `_scan_books()`. -/
def list_available_books (callResult : Option JValue) (dir : Option (List DirEntry)) : JValue :=
  match callResult with
  | some v => v
  | none => .arr ((_scan_books dir).map JValue.str)

/-- The `archivist_agent` smol-tool (lines 36-53): the remote call is
wrapped in `try/except Exception`, so a raised transport error becomes
an error-prefixed string and an empty output becomes a sentinel. -/
def archivist_agent (res : Except String RunResult) : String :=
  match res with
  | .error e => "Error communicating with Archivist agent: " ++ e
  | .ok run =>
    match run.output with
    | parts :: _ =>
      match parts with
      | c :: _ => c
      | [] => "Archivist returned no content."
    | [] => "Archivist returned no content."

/-- The routing logic of `literary_critic_agent` (lines 183-196):
the fast path answers listing intents from `books`
(the result of `list_available_books()`); every other prompt is handed
to the opaque `ToolCallingAgent.run`, modelled by `run`. -/
def literary_critic_route (prompt : String) (books : List String) (run : String → String) :
    String :=
  if (pyContains (pyLower prompt) "book" || pyContains (pyLower prompt) "library")
      && (pyContains (pyLower prompt) "list" || pyContains (pyLower prompt) "available"
          || pyContains (pyLower prompt) "have") then
    if books.isEmpty then
      "No books found in the library. Add .txt files to the ai_librarian/data/ folder."
    else
      "Available books (use these keys):\n- " ++ String.intercalate "\n- " (pySorted books)
  else run prompt

end Smol

/-! ## crew_agent_server.py — the archivist specialist -/

namespace Crew

/-- The Python exceptions live inside `archivist_agent`'s parse stage. -/
inductive PyExc : Type where
  | jsonDecodeErr (msg : String) : PyExc
  | keyErr (key : String) : PyExc
  | typeErr : PyExc
deriving DecidableEq

/-- How one request terminates inside the modelled part of
`archivist_agent`: either a yielded text message, or the hand-off of
`book_title` and `query` to the opaque RAG/crew pipeline. -/
inductive ArchOutcome : Type where
  | reply (text : String) : ArchOutcome
  | delegate (bookTitle query : JValue) : ArchOutcome

/-- Python subscription `v[k]` with a string key: field access on a
dict, `KeyError` when absent, `TypeError` on every non-dict value. -/
def pyGetItem (v : JValue) (k : String) : Except PyExc JValue :=
  match v with
  | .obj kvs =>
    match lookupAssoc kvs k with
    | some x => .ok x
    | none => .error (.keyErr k)
  | _ => .error .typeErr

/-- The body of the `try` block (lines 41-45): `json.loads` outcome,
then `request_data['book_title']` and `request_data['query']`. -/
def parse_request (parsed : Except String JValue) : Except PyExc (JValue × JValue) :=
  match parsed with
  | .error m => .error (.jsonDecodeErr m)
  | .ok v =>
    match pyGetItem v "book_title" with
    | .error e => .error e
    | .ok bt =>
      match pyGetItem v "query" with
      | .error e => .error e
      | .ok q => .ok (bt, q)

/-- The message of line 47; `excText` is Python's `f"{e}"` for the
caught exception. -/
def invalid_msg (excText : String) : String :=
  "Invalid input format. Please provide a JSON string with \x27book_title\x27 and \x27query\x27. Error: "
    ++ excText

/-- `os.path.isfile` of a name inside the data directory. -/
def is_file (dir : Option (List DirEntry)) (fname : String) : Bool :=
  match dir with
  | none => false
  | some entries => entries.any (fun e => e.name == fname && e.isFile)

/-- Lines 53-56: the helpful key list scans `*.txt` names without an
`isfile` check. -/
def available_books (dir : Option (List DirEntry)) : List String :=
  match dir with
  | none => []
  | some entries =>
    (entries.filter (fun e => pyEndsWith e.name ".txt")).map (fun e => pySplitextBase e.name)

/-- `archivist_agent` from `crew_agent_server.py` up to the hand-off to
the RAG pipeline.  The `except` clause catches only `JSONDecodeError`
and `KeyError`; a `TypeError` (non-dict JSON value, or the `+`
concatenation of a non-string `book_title` in the not-found message)
propagates as `Except.error`. -/
def archivist_agent (parsed : Except String JValue) (dir : Option (List DirEntry)) :
    Except PyExc ArchOutcome :=
  match parse_request parsed with
  | .error (.jsonDecodeErr m) => .ok (.reply (invalid_msg m))
  | .error (.keyErr k) => .ok (.reply (invalid_msg ("\x27" ++ k ++ "\x27")))
  | .error .typeErr => .error .typeErr
  | .ok (bt, q) =>
    if is_file dir (pyStr bt ++ ".txt") then .ok (.delegate bt q)
    else
      match bt with
      | .str s =>
        .ok (.reply ("Requested book not found: \x27" ++ s ++
          "\x27. Ensure the \x27book_title\x27 matches one of: " ++
          String.intercalate ", " (available_books dir)))
      | _ => .error .typeErr

end Crew

/-! ## main.py — the interactive CLI client -/

namespace Cli

def ALIASES : List (String × String) :=
  [("pride and prejudice", "prideandprejudice"),
   ("pride & prejudice", "prideandprejudice"),
   ("prideand predjudice", "prideandprejudice")]

/-- The `AGENTS` map of `main.py`: name, base URL, remote agent name
(in insertion order). -/
def AGENTS : List (String × String × String) :=
  [("critic", "http://127.0.0.1:8002", "literary_critic_agent"),
   ("archivist", "http://127.0.0.1:8001", "archivist_agent"),
   ("catalog", "http://127.0.0.1:8003", "book_catalog_server")]

/-- `normalize_key` from `main.py`. -/
def normalize_key (user_key : String) : String :=
  (lookupAssoc ALIASES (pyLower (pyStrip user_key))).getD (pyLower (pyStrip user_key))

/-- `call_agent` from `main.py`.  The function has no `try/except`, so
a raised transport exception (`res = .error e`) propagates unchanged;
a completed run is mapped to the first part text, an `[ERROR]` string,
or the `[EMPTY RESPONSE]` sentinel. -/
def call_agent (res : Except String RunResult) : Except String String :=
  match res with
  | .error e => .error e
  | .ok run =>
    match run.output with
    | parts :: _ =>
      match parts with
      | c :: _ => .ok c
      | [] =>
        match run.error with
        | some er => .ok ("[ERROR] " ++ er)
        | none => .ok "[EMPTY RESPONSE]"
    | [] =>
      match run.error with
      | some er => .ok ("[ERROR] " ++ er)
      | none => .ok "[EMPTY RESPONSE]"

/-- What one loop iteration of `interactive()` does besides updating
the `current` selection; branches whose effects are network or
terminal interaction carry their arguments abstractly. -/
inductive StepAction : Type where
  | skip : StepAction
  | exitLoop : StepAction
  | banner : StepAction
  | agentsList : StepAction
  | printed (msg : String) : StepAction
  | metaCmd (key : String) : StepAction
  | listCmd : StepAction
  | question (current payload : String) : StepAction
deriving DecidableEq

/-- One iteration of the `interactive()` loop of `main.py` on the raw
input line: returns the new active selection and the action taken.
Only the `/use` branch ever changes the selection. -/
def interactive_step (current : String) (raw : String) : String × StepAction :=
  if pyStrip raw = "" then (current, .skip)
  else if pyLower (pyStrip raw) = "/exit" ∨ pyLower (pyStrip raw) = "exit"
      ∨ pyLower (pyStrip raw) = "quit" ∨ pyLower (pyStrip raw) = ":q" then
    (current, .exitLoop)
  else if pyLower (pyStrip raw) = "/help" ∨ pyLower (pyStrip raw) = "help" then
    (current, .banner)
  else if pyLower (pyStrip raw) = "/agents" ∨ pyLower (pyStrip raw) = "agents" then
    (current, .agentsList)
  else if pyStartsWith (pyLower (pyStrip raw)) "/use " = true then
    match lookupAssoc AGENTS (pyLower (pyStrip (pyAfterSep (pyStrip raw) ' '))) with
    | some (url, agentName) =>
      (pyLower (pyStrip (pyAfterSep (pyStrip raw) ' ')),
        .printed ("Switched to \x27" ++ pyLower (pyStrip (pyAfterSep (pyStrip raw) ' ')) ++
          "\x27 -> " ++ agentName ++ " @ " ++ url))
    | none =>
      (current,
        .printed ("Unknown agent \x27" ++ pyLower (pyStrip (pyAfterSep (pyStrip raw) ' ')) ++
          "\x27. Try one of: " ++ String.intercalate ", " (AGENTS.map Prod.fst)))
  else if pyStartsWith (pyLower (pyStrip raw)) "/meta " = true then
    (current, .metaCmd (normalize_key (pyAfterSep (pyStrip raw) ' ')))
  else if pyLower (pyStrip raw) = "/list" ∨ pyLower (pyStrip raw) = "list" then
    (current, .listCmd)
  else (current, .question current (pyStrip raw))

end Cli

/-! ## Helper lemmas -/

theorem lookupAssoc_mem {α β : Type} [DecidableEq α] {l : List (α × β)} {k : α} {v : β}
    (h : lookupAssoc l k = some v) : (k, v) ∈ l := by
  induction l with
  | nil => simp [lookupAssoc] at h
  | cons p rest ih =>
    obtain ⟨a, b⟩ := p
    by_cases hk : a = k
    · subst hk
      simp [lookupAssoc] at h
      simp [h]
    · simp [lookupAssoc, hk] at h
      exact List.mem_cons_of_mem _ (ih h)

theorem pyToLowerChar_idem (c : Char) : pyToLowerChar (pyToLowerChar c) = pyToLowerChar c := by
  unfold pyToLowerChar
  cases h : lookupAssoc asciiLowerTable c with
  | none => simp [h]
  | some v =>
    simp only [Option.getD_some]
    have hm := lookupAssoc_mem h
    have hv : ∀ q ∈ asciiLowerTable, lookupAssoc asciiLowerTable q.2 = none := by decide
    rw [hv _ hm]
    rfl

theorem pyIsSpace_toLower (c : Char) : pyIsSpace (pyToLowerChar c) = pyIsSpace c := by
  unfold pyToLowerChar
  cases h : lookupAssoc asciiLowerTable c with
  | none => simp [h]
  | some v =>
    simp only [Option.getD_some]
    have hm := lookupAssoc_mem h
    have hv : ∀ q ∈ asciiLowerTable, pyIsSpace q.2 = false ∧ pyIsSpace q.1 = false := by decide
    rw [(hv _ hm).1, (hv _ hm).2]

theorem dropWhile_self_idem (p : Char → Bool) (l : List Char) :
    List.dropWhile p (List.dropWhile p l) = List.dropWhile p l := by
  induction l with
  | nil => simp
  | cons a l ih =>
    by_cases h : p a
    · simp [List.dropWhile_cons, h, ih]
    · simp [List.dropWhile_cons, h]

theorem length_dropWhile_le_self (p : Char → Bool) (l : List Char) :
    (l.dropWhile p).length ≤ l.length := by
  induction l with
  | nil => simp
  | cons a l ih =>
    by_cases h : p a
    · simp only [List.dropWhile_cons, h, if_true]
      exact le_trans ih (by simp)
    · simp [List.dropWhile_cons, h]

theorem dropWhile_eq_self_of_isPrefix (p : Char → Bool) {l t : List Char}
    (hl : List.dropWhile p l = l) (ht : t <+: l) : List.dropWhile p t = t := by
  cases t with
  | nil => simp
  | cons a t' =>
    cases l with
    | nil => exact absurd ht (by simp)
    | cons b l' =>
      obtain ⟨r, hr⟩ := ht
      have hab : a = b := by
        have := congrArg (fun x => x.head?) hr
        simpa using this
      subst hab
      by_cases hpb : p a
      · exfalso
        rw [List.dropWhile_cons, if_pos hpb] at hl
        have := congrArg List.length hl
        have hle := length_dropWhile_le_self p l'
        simp at this
        omega
      · simp [List.dropWhile_cons, hpb]

theorem stripRight_isPrefix (l : List Char) : stripRightL l <+: l := by
  unfold stripRightL
  have h : List.dropWhile pyIsSpace l.reverse <:+ l.reverse := List.dropWhile_suffix _
  have h2 := List.reverse_prefix.mpr h
  rwa [List.reverse_reverse] at h2

theorem stripRight_idem (l : List Char) : stripRightL (stripRightL l) = stripRightL l := by
  unfold stripRightL
  rw [List.reverse_reverse, dropWhile_self_idem]

theorem stripL_idem (l : List Char) : stripL (stripL l) = stripL l := by
  unfold stripL
  have h1 : stripLeftL (stripRightL (stripLeftL l)) = stripRightL (stripLeftL l) := by
    apply dropWhile_eq_self_of_isPrefix pyIsSpace (dropWhile_self_idem pyIsSpace l)
    exact stripRight_isPrefix _
  rw [h1, stripRight_idem]

theorem dropWhile_map_lower (l : List Char) :
    List.dropWhile pyIsSpace (l.map pyToLowerChar) =
      (List.dropWhile pyIsSpace l).map pyToLowerChar := by
  induction l with
  | nil => simp
  | cons a l ih =>
    by_cases h : pyIsSpace a
    · simp [List.dropWhile_cons, pyIsSpace_toLower, h, ih]
    · simp [List.dropWhile_cons, pyIsSpace_toLower, h]

theorem stripRight_map_lower (l : List Char) :
    stripRightL (l.map pyToLowerChar) = (stripRightL l).map pyToLowerChar := by
  unfold stripRightL
  rw [← List.map_reverse, dropWhile_map_lower, List.map_reverse]

theorem stripL_map_lower (l : List Char) :
    stripL (l.map pyToLowerChar) = (stripL l).map pyToLowerChar := by
  unfold stripL stripLeftL
  rw [dropWhile_map_lower, stripRight_map_lower]

theorem map_lower_idem (l : List Char) :
    (l.map pyToLowerChar).map pyToLowerChar = l.map pyToLowerChar := by
  rw [List.map_map]
  exact List.map_congr_left (fun x _ => pyToLowerChar_idem x)

theorem lowerStrip_fix (x : String) :
    pyLower (pyStrip (pyLower (pyStrip x))) = pyLower (pyStrip x) := by
  show (⟨(stripL ((stripL x.data).map pyToLowerChar)).map pyToLowerChar⟩ : String) =
    ⟨(stripL x.data).map pyToLowerChar⟩
  rw [stripL_map_lower, stripL_idem, map_lower_idem]

theorem startsWithL_append (a b : List Char) : startsWithL (a ++ b) a = true := by
  induction a with
  | nil => cases b <;> rfl
  | cons c cs ih => simp [startsWithL, ih]

theorem afterSepL_append (sep : Char) (a b : List Char) (h : sep ∉ a) :
    afterSepL sep (a ++ sep :: b) = b := by
  induction a with
  | nil => simp [afterSepL]
  | cons c cs ih =>
    simp only [List.mem_cons, not_or] at h
    have hc : (c == sep) = false := by simp [Ne.symm h.1]
    simp [afterSepL, hc, ih h.2]

theorem pyAfterSep_meta (k : String) : pyAfterSep ("__META__:" ++ k) ':' = k := by
  show (⟨afterSepL ':' (("__META__:" ++ k).data)⟩ : String) = k
  have hd : ("__META__:" ++ k).data = "__META__".data ++ ':' :: k.data := by
    rw [String.data_append]
    rfl
  rw [hd, afterSepL_append ':' _ _ (by decide)]

theorem splitextBase_txt (k : String) (h : k.data.any (fun c => c != '.') = true) :
    pySplitextBase (k ++ ".txt") = k := by
  show (⟨splitextBaseL ((k ++ ".txt").data)⟩ : String) = k
  have hd : (k ++ ".txt").data = k.data ++ ['.', 't', 'x', 't'] := by
    rw [String.data_append]
  rw [hd]
  unfold splitextBaseL
  rw [List.reverse_append]
  have hrev : (['.', 't', 'x', 't'] : List Char).reverse = ['t', 'x', 't', '.'] := rfl
  rw [hrev]
  have htake : List.takeWhile (fun c => c != '.') (['t', 'x', 't', '.'] ++ k.data.reverse)
      = ['t', 'x', 't'] := rfl
  rw [htake]
  have hlen : (['t', 'x', 't'] : List Char).length = 3 := rfl
  rw [hlen]
  have hlen2 : (['t', 'x', 't', '.'] ++ k.data.reverse).length = 4 + k.data.reverse.length := by
    simp
    omega
  rw [hlen2]
  rw [if_neg (by omega)]
  have hdrop : (['t', 'x', 't', '.'] ++ k.data.reverse).drop (3 + 1) = k.data.reverse := by
    have h4 : (3 + 1) = (['t', 'x', 't', '.'] : List Char).length := rfl
    rw [h4, List.drop_left]
  rw [hdrop, List.reverse_reverse, if_pos h]

theorem mem_insortStr (a x : String) (l : List String) :
    a ∈ insortStr x l ↔ a = x ∨ a ∈ l := by
  induction l with
  | nil => simp [insortStr]
  | cons y ys ih =>
    by_cases h : pyStrLeB x y
    · simp [insortStr, h]
    · simp [insortStr, h, ih]
      tauto

theorem mem_pySorted (a : String) (l : List String) : a ∈ pySorted l ↔ a ∈ l := by
  induction l with
  | nil => simp [pySorted]
  | cons x xs ih =>
    show a ∈ insortStr x (pySorted xs) ↔ _
    rw [mem_insortStr]
    simp [ih]

theorem ne_of_startsWith {a b pat : String} (h1 : pyStartsWith a pat = true)
    (h2 : pyStartsWith b pat = false) : a ≠ b := by
  intro he
  subst he
  rw [h1] at h2
  cases h2

/-! ## Claim theorems -/

/-- C2 counterexample: `call_agent` in `main.py` has no `try/except`, so
a raised transport exception (connection refused) propagates past its
boundary instead of being converted to an error string — the claim's
no-raise guarantee fails for the Specialist Client of `main.py`. -/
theorem C2_counterexample :
    Cli.call_agent (.error "[Errno 111] Connection refused") =
      .error "[Errno 111] Connection refused" := rfl

/-- C2 (amended): the archivist delegation tool of
`smolagents_server.py` never raises — on a raised transport exception
it returns an "Error communicating" string and on a completed call
with empty output it returns the "no content" sentinel — while
`main.py`'s `call_agent` converts a run-level error value to an
"[ERROR]"-prefixed string and empty successful output to
"[EMPTY RESPONSE]", but propagates raised transport exceptions
unchanged. -/
theorem C2_theorem : ∀ (e er : String) (ms : List (List String)),
    Smol.archivist_agent (.error e) = "Error communicating with Archivist agent: " ++ e
    ∧ Smol.archivist_agent (.ok ⟨[], none⟩) = "Archivist returned no content."
    ∧ Smol.archivist_agent (.ok ⟨[] :: ms, none⟩) = "Archivist returned no content."
    ∧ Cli.call_agent (.ok ⟨[], some er⟩) = .ok ("[ERROR] " ++ er)
    ∧ Cli.call_agent (.ok ⟨[] :: ms, some er⟩) = .ok ("[ERROR] " ++ er)
    ∧ Cli.call_agent (.ok ⟨[], none⟩) = .ok "[EMPTY RESPONSE]"
    ∧ Cli.call_agent (.ok ⟨[] :: ms, none⟩) = .ok "[EMPTY RESPONSE]"
    ∧ Cli.call_agent (.error e) = .error e := by
  intro e er ms
  exact ⟨rfl, rfl, rfl, rfl, rfl, rfl, rfl, rfl⟩

/-- C3 counterexample: with local metadata `{"a": {}}` and content
directory `{b.txt}`, the catalog-service-down fallback of
`list_available_books` yields the key set `{b}` (directory scan only),
while the Catalog Store computes `{a}` (metadata keys preferred) — the
two key sets differ. -/
theorem C3_counterexample :
    Smol.list_available_books none (some [⟨"b.txt", true⟩]) = JValue.arr [JValue.str "b"]
    ∧ pySorted (Mcp.book_keys [("a", JValue.obj [])] (some [⟨"b.txt", true⟩])) = ["a"]
    ∧ "b" ∉ (["a"] : List String) := by
  exact ⟨rfl, rfl, by decide⟩

/-- C3 (amended): when every catalog-service call fails,
`list_available_books` returns exactly the directory-scan key set;
this agrees with the Catalog Store's directly computed key set
whenever the store's metadata mapping is empty (in general the store
prefers metadata keys while the fallback never consults metadata). -/
theorem C3_theorem : ∀ (dir : Option (List DirEntry)) (k : String),
    Smol.list_available_books none dir = JValue.arr ((Smol._scan_books dir).map JValue.str)
    ∧ (k ∈ Smol._scan_books dir ↔ k ∈ pySorted (Mcp.book_keys [] dir)) := by
  intro dir k
  refine ⟨rfl, ?_⟩
  have h1 : Mcp.book_keys [] dir = Mcp.scan_books dir := rfl
  have h2 : Smol._scan_books dir = Mcp.scan_books dir := rfl
  rw [h1, h2, mem_pySorted]

/-- C5: when the remote metadata source is configured but its fetch
raises, `load_metadata` equals the purely local tier-2 computation,
and the whole catalog agent answers exactly as it would with no remote
source configured — the remote failure is absorbed and never surfaces
(the agent is total and returns an ordinary response). -/
theorem C5_theorem : ∀ (input : List (List String)) (localDoc r : Except Unit JObj)
    (dir : Option (List DirEntry)),
    Mcp.load_metadata true (.error ()) localDoc = Mcp.local_metadata localDoc
    ∧ Mcp.book_catalog_agent input true (.error ()) localDoc dir =
        Mcp.book_catalog_agent input false r localDoc dir := by
  intro input localDoc r dir
  cases localDoc <;> exact ⟨rfl, rfl⟩

/-- C8: the key normalizer of `main.py` is idempotent — normalizing an
already-normalized string (trim, lower-case, alias-table lookup)
changes nothing. -/
theorem C8_theorem : ∀ x : String,
    Cli.normalize_key (Cli.normalize_key x) = Cli.normalize_key x := by
  intro x
  unfold Cli.normalize_key
  cases h : lookupAssoc Cli.ALIASES (pyLower (pyStrip x)) with
  | some v =>
    simp only [Option.getD_some]
    have hm := lookupAssoc_mem h
    have hv : ∀ q ∈ Cli.ALIASES,
        (lookupAssoc Cli.ALIASES (pyLower (pyStrip q.2))).getD (pyLower (pyStrip q.2)) = q.2 := by
      decide
    exact hv _ hm
  | none =>
    simp only [Option.getD_none]
    rw [lowerStrip_fix, h]
    rfl

/-- C10: for every input whose extracted prompt is neither exactly
"__LIST__" nor prefixed "__META__:" (including an empty input list,
whose prompt is the empty string), `book_catalog_agent` returns the
single message "\x7b\x7d" and never errors. -/
theorem C10_theorem : ∀ (input : List (List String)) (urlConfigured : Bool)
    (remote localDoc : Except Unit JObj) (dir : Option (List DirEntry)),
    Mcp.extract_prompt input ≠ "__LIST__" →
    pyStartsWith (Mcp.extract_prompt input) "__META__:" = false →
    Mcp.book_catalog_agent input urlConfigured remote localDoc dir = ["\x7b\x7d"] := by
  intro input urlConfigured remote localDoc dir h1 h2
  unfold Mcp.book_catalog_agent Mcp.book_catalog_respond
  rw [if_neg h1, if_neg (by simp [h2])]

/-- C10 witness: the empty input (prompt "") and an ordinary chat
prompt both yield exactly "\x7b\x7d". -/
theorem C10_witness :
    Mcp.book_catalog_agent [] false (.error ()) (.error ()) none = ["\x7b\x7d"]
    ∧ Mcp.book_catalog_agent [["hello"]] true (.ok [("a", JValue.obj [])]) (.error ()) none =
        ["\x7b\x7d"] := by
  exact ⟨C10_theorem [] false (.error ()) (.error ()) none (by decide) (by decide),
    C10_theorem [["hello"]] true (.ok [("a", JValue.obj [])]) (.error ()) none
      (by decide) (by decide)⟩

/-- C1 counterexample: with non-empty metadata `{"a": {}}` and content
file `b.txt`, the key "b" satisfies the claim's hypotheses (its file
exists, it is absent from the metadata mapping) yet it is not a member
of the catalog's __LIST__ key set, because line 59 prefers metadata
keys whenever the mapping is non-empty. -/
theorem C1_counterexample :
    lookupAssoc ([("a", JValue.obj [])] : JObj) "b" = none
    ∧ (⟨"b.txt", true⟩ : DirEntry) ∈ [(⟨"b.txt", true⟩ : DirEntry)]
    ∧ "b" ∉ pySorted (Mcp.book_keys [("a", JValue.obj [])] (some [⟨"b.txt", true⟩])) := by
  refine ⟨rfl, by decide, ?_⟩
  have h : pySorted (Mcp.book_keys [("a", JValue.obj [])] (some [⟨"b.txt", true⟩])) = ["a"] :=
    rfl
  rw [h]
  decide

/-- C1 (amended): for a key `k` (containing some non-dot character)
whose regular file `k ++ ".txt"` is in the content directory and that
is absent from the metadata mapping, the __META__ lookup returns the
empty object "\x7b\x7d" regardless of the metadata mapping, and `k` is
a member of the __LIST__ key set whenever the metadata mapping is
empty (with non-empty metadata the listing is the metadata keys, so
membership can fail). -/
theorem C1_theorem : ∀ (metadata : JObj) (entries : List DirEntry) (k : String),
    (⟨k ++ ".txt", true⟩ : DirEntry) ∈ entries →
    lookupAssoc metadata k = none →
    k.data.any (fun c => c != '.') = true →
    Mcp.book_catalog_respond ("__META__:" ++ k) metadata (some entries) = ["\x7b\x7d"]
    ∧ (metadata = [] → k ∈ pySorted (Mcp.book_keys metadata (some entries))) := by
  intro metadata entries k hmem hlook hdot
  constructor
  · unfold Mcp.book_catalog_respond
    have hne : "__META__:" ++ k ≠ "__LIST__" := by
      intro he
      have hlen := congrArg String.length he
      rw [String.length_append] at hlen
      have h9 : ("__META__:" : String).length = 9 := rfl
      have h8 : ("__LIST__" : String).length = 8 := rfl
      rw [h9, h8] at hlen
      omega
    have hsw : pyStartsWith ("__META__:" ++ k) "__META__:" = true := by
      show startsWithL ("__META__:" ++ k).data ("__META__:").data = true
      rw [String.data_append]
      exact startsWithL_append _ _
    rw [if_neg hne, if_pos hsw, pyAfterSep_meta, hlook]
    rfl
  · intro hm
    subst hm
    have hbk : Mcp.book_keys [] (some entries) = Mcp.scan_books (some entries) := rfl
    rw [hbk, mem_pySorted]
    unfold Mcp.scan_books
    apply List.mem_map.mpr
    refine ⟨⟨k ++ ".txt", true⟩, List.mem_filter.mpr ⟨hmem, ?_⟩, splitextBase_txt k hdot⟩
    have hend : pyEndsWith (k ++ ".txt") ".txt" = true := by
      show startsWithL ((k ++ ".txt").data.reverse) ((".txt" : String).data.reverse) = true
      rw [String.data_append, List.reverse_append]
      exact startsWithL_append _ _
    simp [hend]

/-- C1 witness: with empty metadata and content file `b.txt`, the
__META__ lookup for "b" yields "\x7b\x7d" and "b" is listed. -/
theorem C1_witness :
    Mcp.book_catalog_respond ("__META__:" ++ "b") [] (some [⟨"b.txt", true⟩]) = ["\x7b\x7d"]
    ∧ "b" ∈ pySorted (Mcp.book_keys [] (some [⟨"b.txt", true⟩])) := by
  have h := C1_theorem [] [⟨"b.txt", true⟩] "b" (by decide) rfl (by decide)
  exact ⟨h.1, h.2 rfl⟩

/-- C4 counterexample: the payload "[]" is valid JSON that lacks both
required fields, yet `request_data['book_title']` on a list raises a
`TypeError`, which the `except (json.JSONDecodeError, KeyError)`
clause does not catch — the failure propagates as an unhandled error
instead of a graceful text response. -/
theorem C4_counterexample :
    Crew.archivist_agent (.ok (JValue.arr [])) (some []) = .error Crew.PyExc.typeErr := rfl

/-- C4 (amended): for every request that is not valid JSON, or parses
to a JSON object lacking 'book_title' or 'query', the archivist
terminates with a normal successful text response describing the
expected shape; valid JSON whose value is not an object is outside
this guarantee (it raises an uncaught TypeError). -/
theorem C4_theorem : ∀ (m : String) (kvs : JObj) (dir : Option (List DirEntry)),
    Crew.archivist_agent (.error m) dir = .ok (.reply (Crew.invalid_msg m))
    ∧ (lookupAssoc kvs "book_title" = none →
        Crew.archivist_agent (.ok (.obj kvs)) dir =
          .ok (.reply (Crew.invalid_msg "\x27book_title\x27")))
    ∧ (∀ bt, lookupAssoc kvs "book_title" = some bt → lookupAssoc kvs "query" = none →
        Crew.archivist_agent (.ok (.obj kvs)) dir =
          .ok (.reply (Crew.invalid_msg "\x27query\x27"))) := by
  intro m kvs dir
  refine ⟨rfl, ?_, ?_⟩
  · intro h
    simp [Crew.archivist_agent, Crew.parse_request, Crew.pyGetItem, h]
  · intro bt h1 h2
    simp [Crew.archivist_agent, Crew.parse_request, Crew.pyGetItem, h1, h2]

/-- C4 witness: an empty JSON object and an object carrying only
'book_title' both produce the graceful invalid-format reply. -/
theorem C4_witness :
    Crew.archivist_agent (.ok (.obj [])) none = .ok (.reply (Crew.invalid_msg "\x27book_title\x27"))
    ∧ Crew.archivist_agent (.ok (.obj [("book_title", JValue.str "mobydick")])) none =
        .ok (.reply (Crew.invalid_msg "\x27query\x27")) := by
  have ha := C4_theorem "" [] none
  have hb := C4_theorem "" [("book_title", JValue.str "mobydick")] none
  exact ⟨ha.2.1 rfl, hb.2.2 _ rfl rfl⟩

/-- C6: a prompt containing (case-insensitively) a book/library noun
and a listing intent word is answered by the fast path without
invoking the reasoning collaborator — the answer is independent of the
delegated agent, and is the fixed guidance message when the key set is
empty, else the sorted human-readable listing. -/
theorem C6_theorem : ∀ (prompt : String) (books : List String) (r₁ r₂ : String → String),
    (pyContains (pyLower prompt) "book" || pyContains (pyLower prompt) "library") = true →
    (pyContains (pyLower prompt) "list" || pyContains (pyLower prompt) "available"
      || pyContains (pyLower prompt) "have") = true →
    Smol.literary_critic_route prompt books r₁ = Smol.literary_critic_route prompt books r₂
    ∧ (books = [] → Smol.literary_critic_route prompt books r₁ =
        "No books found in the library. Add .txt files to the ai_librarian/data/ folder.")
    ∧ (books ≠ [] → Smol.literary_critic_route prompt books r₁ =
        "Available books (use these keys):\n- " ++ String.intercalate "\n- " (pySorted books)) := by
  intro prompt books r₁ r₂ h1 h2
  refine ⟨?_, ?_, ?_⟩
  · simp [Smol.literary_critic_route, h1, h2]
  · intro hb
    subst hb
    simp [Smol.literary_critic_route, h1, h2]
  · intro hb
    have hne : books.isEmpty = false := by
      cases books with
      | nil => exact absurd rfl hb
      | cons x xs => rfl
    simp [Smol.literary_critic_route, h1, h2, hne]

/-- C6 witness: the prompt "What books are available in the library?"
against a directory holding `mobydick.txt` and `frankenstein.txt`
yields the listing of both keys, sorted, for any delegated agent. -/
theorem C6_witness :
    Smol.literary_critic_route "What books are available in the library?"
      (Smol._scan_books (some [⟨"mobydick.txt", true⟩, ⟨"frankenstein.txt", true⟩]))
      (fun _ => "delegated result") =
    "Available books (use these keys):\n- frankenstein\n- mobydick" := by
  have h0 := C6_theorem "What books are available in the library?"
    (Smol._scan_books (some [⟨"mobydick.txt", true⟩, ⟨"frankenstein.txt", true⟩]))
    (fun _ => "delegated result") (fun _ => "delegated result")
    (by decide) (by decide)
  have h := h0.2.2 (by decide)
  rw [h]
  rfl

/-- C7: a well-formed request whose string 'book_title' has no
corresponding content file makes the archivist yield a normal text
response carrying the available-key list scanned from the content
directory — not a propagated error. -/
theorem C7_theorem : ∀ (kvs : JObj) (bt : String) (q : JValue) (dir : Option (List DirEntry)),
    lookupAssoc kvs "book_title" = some (JValue.str bt) →
    lookupAssoc kvs "query" = some q →
    Crew.is_file dir (bt ++ ".txt") = false →
    Crew.archivist_agent (.ok (.obj kvs)) dir = .ok (.reply
      ("Requested book not found: \x27" ++ bt ++
       "\x27. Ensure the \x27book_title\x27 matches one of: " ++
       String.intercalate ", " (Crew.available_books dir))) := by
  intro kvs bt q dir h1 h2 h3
  have hps : pyStr (JValue.str bt) = bt := rfl
  simp [Crew.archivist_agent, Crew.parse_request, Crew.pyGetItem, h1, h2, hps, h3]

/-- C7 witness: `{"book_title": "nonexistent", "query": "q"}` against
an empty content directory yields the guidance reply with the (empty)
available-key list. -/
theorem C7_witness :
    Crew.archivist_agent
      (.ok (.obj [("book_title", JValue.str "nonexistent"), ("query", JValue.str "q")]))
      (some []) =
    .ok (.reply ("Requested book not found: \x27nonexistent\x27. " ++
      "Ensure the \x27book_title\x27 matches one of: " ++
      String.intercalate ", " (Crew.available_books (some [])))) := by
  have h := C7_theorem [("book_title", JValue.str "nonexistent"), ("query", JValue.str "q")]
    "nonexistent" (JValue.str "q") (some []) rfl rfl rfl
  rw [h]
  rfl

/-- C9: a "/use" command naming an unknown service leaves the active
selection exactly as it was and prints a visible "Unknown agent"
error, while a known name becomes the new selection. -/
theorem C9_theorem : ∀ (current raw : String),
    pyStartsWith (pyLower (pyStrip raw)) "/use " = true →
    (lookupAssoc Cli.AGENTS (pyLower (pyStrip (pyAfterSep (pyStrip raw) ' '))) = none →
      Cli.interactive_step current raw = (current, .printed ("Unknown agent \x27" ++
        pyLower (pyStrip (pyAfterSep (pyStrip raw) ' ')) ++
        "\x27. Try one of: " ++ "critic, archivist, catalog")))
    ∧ (∀ url agentName,
        lookupAssoc Cli.AGENTS (pyLower (pyStrip (pyAfterSep (pyStrip raw) ' '))) =
          some (url, agentName) →
      Cli.interactive_step current raw =
        (pyLower (pyStrip (pyAfterSep (pyStrip raw) ' ')),
          .printed ("Switched to \x27" ++ pyLower (pyStrip (pyAfterSep (pyStrip raw) ' ')) ++
            "\x27 -> " ++ agentName ++ " @ " ++ url))) := by
  intro current raw h
  have hne : ¬(pyStrip raw = "") := by
    intro he
    rw [he] at h
    exact absurd h (by decide)
  have hne2 : ¬(pyLower (pyStrip raw) = "/exit" ∨ pyLower (pyStrip raw) = "exit"
      ∨ pyLower (pyStrip raw) = "quit" ∨ pyLower (pyStrip raw) = ":q") := by
    rintro (he | he | he | he) <;>
      exact absurd he (ne_of_startsWith h (by decide))
  have hne3 : ¬(pyLower (pyStrip raw) = "/help" ∨ pyLower (pyStrip raw) = "help") := by
    rintro (he | he) <;> exact absurd he (ne_of_startsWith h (by decide))
  have hne4 : ¬(pyLower (pyStrip raw) = "/agents" ∨ pyLower (pyStrip raw) = "agents") := by
    rintro (he | he) <;> exact absurd he (ne_of_startsWith h (by decide))
  constructor
  · intro hlook
    unfold Cli.interactive_step
    rw [if_neg hne, if_neg hne2, if_neg hne3, if_neg hne4, if_pos h, hlook]
    rfl
  · intro url agentName hlook
    unfold Cli.interactive_step
    rw [if_neg hne, if_neg hne2, if_neg hne3, if_neg hne4, if_pos h, hlook]

/-- C9 witness: "/use historian" is rejected with a visible error and
the selection stays "critic"; "/use Archivist" switches to
"archivist". -/
theorem C9_witness :
    Cli.interactive_step "critic" "/use historian" =
      ("critic", .printed "Unknown agent \x27historian\x27. Try one of: critic, archivist, catalog")
    ∧ Cli.interactive_step "critic" "/use Archivist" =
      ("archivist",
        .printed "Switched to \x27archivist\x27 -> archivist_agent @ http://127.0.0.1:8001") := by
  constructor
  · have h0 := C9_theorem "critic" "/use historian" (by decide)
    have h := h0.1 (by decide)
    rw [h]
    rfl
  · have h0 := C9_theorem "critic" "/use Archivist" (by decide)
    have h := h0.2 "http://127.0.0.1:8001" "archivist_agent" (by decide)
    rw [h]
    rfl
